import Mathlib

/-! Verification development for the Klara sample-interface dashboard
(`klara_interface.py`).

The script is a single linear rendering pass: it writes and reads two
bundled assets (a stylesheet and an SVG logo), seeds the numpy global
random generator with 42, draws eight columns of twenty normal samples
each into a data frame, derives a box-plot figure and a radar figure
from that frame, and lays the page out as two columns (widths 1 and 1.2)
holding the two charts on the left and four constant metric sections on
the right.

Modelling choices:
* numeric values are rationals (`ℚ`);
* the numpy global generator is explicit state (`RngState`) threaded
  through the draws; `np.random.normal` itself lives outside the
  repository, so it is an abstract `NormalSampler` parameter, and the
  claims quantify over it (with `SamplerSpec` recording that a request
  for `n` draws returns `n` values);
* the filesystem is a finite map from names to contents, with `open`
  for write modelled as an update and `open` for read as a fallible
  lookup (`Except`);
* the quartiles that plotly computes for a box trace with the default
  `linear` quartile method are the linearly interpolated quantiles of
  the sorted sample.
-/

/-- The pandas data frame built from the `data` dict: a list of named
columns of rational values, in insertion order. -/
structure ClinicalSampleTable where
  cols : List (String × List ℚ)
deriving DecidableEq

/-- State of the numpy global random generator, abstracted: `np.random.seed`
installs a definite state, and each draw advances a counter. -/
structure RngState where
  seed : ℕ
  draws : ℕ
deriving DecidableEq

/-- Embedding of `np.random.seed`. -/
def npRandomSeed (n : ℕ) : RngState := ⟨n, 0⟩

/-- Abstract interface of `np.random.normal mean sd n`: from the current
generator state, produce the drawn values and the advanced state. The
numerical pipeline behind it is numpy library code, outside this
repository, so the development is parametric in it. -/
def NormalSampler : Type := ℚ → ℚ → ℕ → RngState → List ℚ × RngState

/-- Minimal faithfulness condition on a sampler: a request for `n` draws
returns exactly `n` values. -/
def SamplerSpec (f : NormalSampler) : Prop :=
  ∀ (m s : ℚ) (n : ℕ) (st : RngState), ((f m s n st).1).length = n

/-- A concrete sampler used to exhibit satisfiable hypotheses: it returns
the mean `n` times and advances the draw counter. -/
def constSampler : NormalSampler :=
  fun m _ n st => (List.replicate n m, ⟨st.seed, st.draws + n⟩)

theorem constSampler_spec : SamplerSpec constSampler := by
  intro m s n st
  simp [constSampler]

/-- The eight `(name, mean, standard deviation)` triples of the `data`
dict, in the order the source lists them (lines 147-156). -/
def sampleParams : List (String × ℚ × ℚ) :=
  [("height", 1.65, 0.1),
   ("weight", 60, 5),
   ("age", 35, 4),
   ("ER/SAD/Cycle", 15, 2),
   ("AMH", 15, 3),
   ("FSH", 9, 2),
   ("E2", 200, 50),
   ("LH", 10, 2.5)]

/-- The eight column names, in order (also line 158 of the source, which
re-assigns the same names). -/
def sampleColumnNames : List String :=
  ["height", "weight", "age", "ER/SAD/Cycle", "AMH", "FSH", "E2", "LH"]

/-- Sequentially draw the columns of the `data` dict: each entry consumes
twenty values from the generator and passes the advanced state on. -/
def drawColumns (f : NormalSampler) :
    List (String × ℚ × ℚ) → RngState → List (String × List ℚ) × RngState
  | [], st => ([], st)
  | (nm, m, s) :: ps, st =>
      ((nm, (f m s 20 st).1) :: (drawColumns f ps (f m s 20 st).2).1,
       (drawColumns f ps (f m s 20 st).2).2)

/-- One run of the generation step with a given seed: `np.random.seed s`
followed by the eight draws of the `data` dict, collected as a table. -/
def runGeneration (f : NormalSampler) (s : ℕ) : ClinicalSampleTable :=
  ⟨(drawColumns f sampleParams (npRandomSeed s)).1⟩

/-- The table the script builds (`df`), with the seed 42 the source uses
on line 146. -/
def generateData (f : NormalSampler) : ClinicalSampleTable :=
  runGeneration f 42

theorem drawColumns_map_fst (f : NormalSampler) :
    ∀ (ps : List (String × ℚ × ℚ)) (st : RngState),
      ((drawColumns f ps st).1).map Prod.fst = ps.map Prod.fst
  | [], _ => rfl
  | (nm, m, s) :: ps, st => by
      simp [drawColumns, drawColumns_map_fst f ps]

theorem drawColumns_length (f : NormalSampler) :
    ∀ (ps : List (String × ℚ × ℚ)) (st : RngState),
      ((drawColumns f ps st).1).length = ps.length
  | [], _ => rfl
  | (nm, m, s) :: ps, st => by
      simp [drawColumns, drawColumns_length f ps]

theorem drawColumns_getD (f : NormalSampler) :
    ∀ (ps : List (String × ℚ × ℚ)) (st : RngState) (i : ℕ), i < ps.length →
      ∃ st' : RngState,
        ((drawColumns f ps st).1).getD i ("", []) =
          ((ps.getD i ("", 0, 0)).1,
           (f (ps.getD i ("", 0, 0)).2.1 (ps.getD i ("", 0, 0)).2.2 20 st').1)
  | [], _, i, h => absurd h (by simp)
  | (nm, m, s) :: ps, st, 0, _ => ⟨st, by simp [drawColumns]⟩
  | (nm, m, s) :: ps, st, i + 1, h => by
      obtain ⟨st', hst⟩ :=
        drawColumns_getD f ps (f m s 20 st).2 i (by simpa using h)
      exact ⟨st', by simpa [drawColumns] using hst⟩

/-- C1: for a fixed seed, the generation step is deterministic: two runs
with the same seed yield the same table, column by column, and the
script invokes it at the fixed seed 42. -/
theorem generation_deterministic (f : NormalSampler) (s1 s2 : ℕ) (h : s1 = s2) :
    runGeneration f s1 = runGeneration f s2 ∧
    (∀ i : ℕ, (runGeneration f s1).cols.getD i ("", []) =
        (runGeneration f s2).cols.getD i ("", [])) ∧
    generateData f = runGeneration f 42 := by
  subst h
  exact ⟨rfl, fun _ => rfl, rfl⟩

/-- Witness for C1 at the concrete sampler and the source seed 42. -/
theorem generation_deterministic_witness :
    runGeneration constSampler 42 = runGeneration constSampler 42 ∧
    (runGeneration constSampler 42).cols.getD 0 ("", []) =
      (runGeneration constSampler 42).cols.getD 0 ("", []) ∧
    generateData constSampler = runGeneration constSampler 42 := by
  obtain ⟨h1, h2, h3⟩ := generation_deterministic constSampler 42 42 rfl
  exact ⟨h1, h2 0, h3⟩

/-- C2: the generated table has the eight columns in the fixed order with
unique names, each of the twenty requested rows, and column `i` is drawn
by the normal sampler with the mean and standard deviation pair the
source passes for it. -/
theorem generator_shape (f : NormalSampler) (hf : SamplerSpec f) :
    ((generateData f).cols).map Prod.fst = sampleColumnNames ∧
    sampleColumnNames.Nodup ∧
    (generateData f).cols.length = 8 ∧
    (∀ i : ℕ, i < 8 → (((generateData f).cols.getD i ("", [])).2).length = 20) ∧
    (∀ i : ℕ, i < 8 → ∃ st : RngState,
      (generateData f).cols.getD i ("", []) =
        ((sampleParams.getD i ("", 0, 0)).1,
         (f (sampleParams.getD i ("", 0, 0)).2.1
            (sampleParams.getD i ("", 0, 0)).2.2 20 st).1)) := by
  have hex : ∀ i : ℕ, i < 8 → ∃ st : RngState,
      (generateData f).cols.getD i ("", []) =
        ((sampleParams.getD i ("", 0, 0)).1,
         (f (sampleParams.getD i ("", 0, 0)).2.1
            (sampleParams.getD i ("", 0, 0)).2.2 20 st).1) := by
    intro i hi
    exact drawColumns_getD f sampleParams (npRandomSeed 42) i (by simpa [sampleParams] using hi)
  refine ⟨?_, by decide, ?_, ?_, hex⟩
  · have := drawColumns_map_fst f sampleParams (npRandomSeed 42)
    simpa [generateData, runGeneration, sampleParams, sampleColumnNames] using this
  · have := drawColumns_length f sampleParams (npRandomSeed 42)
    simpa [generateData, runGeneration, sampleParams] using this
  · intro i hi
    obtain ⟨st, hst⟩ := hex i hi
    rw [hst]
    exact hf _ _ _ _

/-- Witness for C2 at the concrete sampler, reading off column 0. -/
theorem generator_shape_witness :
    ((generateData constSampler).cols).map Prod.fst = sampleColumnNames ∧
    (generateData constSampler).cols.length = 8 ∧
    (((generateData constSampler).cols.getD 0 ("", [])).2).length = 20 ∧
    ∃ st : RngState,
      (generateData constSampler).cols.getD 0 ("", []) =
        ((sampleParams.getD 0 ("", 0, 0)).1,
         (constSampler (sampleParams.getD 0 ("", 0, 0)).2.1
            (sampleParams.getD 0 ("", 0, 0)).2.2 20 st).1) := by
  obtain ⟨h1, _, h3, h4, h5⟩ := generator_shape constSampler constSampler_spec
  exact ⟨h1, h3, h4 0 (by decide), h5 0 (by decide)⟩

/-- A box trace as the loop on lines 164-166 adds it: the column values,
the column name as the trace name, the shared fill color, and the
`boxpoints=False` flag that suppresses individual outlier points. -/
structure BoxTrace where
  y : List ℚ
  name : String
  markerColor : String
  boxpoints : Bool
deriving DecidableEq

/-- The box figure: one trace per column of the table, in order. -/
def boxFig (t : ClinicalSampleTable) : List BoxTrace :=
  t.cols.map (fun c => ⟨c.2, c.1, "#E83E8C", false⟩)

/-- Ascending sort of a column, used by the quartile computation. -/
def sortColumn (xs : List ℚ) : List ℚ :=
  List.insertionSort (fun a b => a ≤ b) xs

/-- Linear interpolation into a sorted sample at fractional rank `h`:
the value between positions `⌊h⌋` and `⌊h⌋ + 1`. -/
def interpAt (s : List ℚ) (h : ℚ) : ℚ :=
  if (⌊h⌋).toNat + 1 < s.length then
    s.getD ((⌊h⌋).toNat) 0 +
      (h - (((⌊h⌋).toNat : ℕ) : ℚ)) *
        (s.getD ((⌊h⌋).toNat + 1) 0 - s.getD ((⌊h⌋).toNat) 0)
  else s.getD (s.length - 1) 0

/-- The `p`-quantile of a sample under the `linear` method plotly applies
by default to a box trace: interpolate the sorted sample at rank
`p * (n - 1)`. -/
def quantile (xs : List ℚ) (p : ℚ) : ℚ :=
  if xs = [] then 0
  else interpAt (sortColumn xs) (p * ((xs.length : ℚ) - 1))

/-- The five-number summary a box glyph renders. -/
structure BoxPlotSpec where
  min : ℚ
  q1 : ℚ
  median : ℚ
  q3 : ℚ
  max : ℚ
deriving DecidableEq

/-- The five-number summary of one column: the 0, 1/4, 1/2, 3/4 and 1
quantiles of its values. -/
def boxStats (xs : List ℚ) : BoxPlotSpec :=
  ⟨quantile xs 0, quantile xs (1/4), quantile xs (1/2),
   quantile xs (3/4), quantile xs 1⟩

theorem sortColumn_sorted (xs : List ℚ) :
    List.Sorted (fun a b : ℚ => a ≤ b) (sortColumn xs) :=
  List.sorted_insertionSort _ xs

theorem sortColumn_length (xs : List ℚ) : (sortColumn xs).length = xs.length :=
  List.length_insertionSort _ xs

theorem sortColumn_ne_nil {xs : List ℚ} (h : xs ≠ []) : sortColumn xs ≠ [] := by
  intro hc
  apply h
  have := sortColumn_length xs
  rw [hc] at this
  exact List.length_eq_zero.mp this.symm

theorem getD_mono_of_sorted {s : List ℚ}
    (hs : List.Sorted (fun a b : ℚ => a ≤ b) s) {i j : ℕ}
    (hij : i ≤ j) (hj : j < s.length) : s.getD i 0 ≤ s.getD j 0 := by
  have hi : i < s.length := lt_of_le_of_lt hij hj
  rw [List.getD_eq_getElem _ _ hi, List.getD_eq_getElem _ _ hj]
  have := hs.rel_get_of_le (a := ⟨i, hi⟩) (b := ⟨j, hj⟩) hij
  simpa using this

theorem interpAt_mono {s : List ℚ}
    (hs : List.Sorted (fun a b : ℚ => a ≤ b) s) (hne : s ≠ [])
    {h h' : ℚ} (h0 : 0 ≤ h) (hhh : h ≤ h')
    (hub : h' ≤ (s.length : ℚ) - 1) :
    interpAt s h ≤ interpAt s h' := by
  have hn : 0 < s.length := List.length_pos.mpr hne
  set I : ℕ := (⌊h⌋).toNat with hIdef
  set I' : ℕ := (⌊h'⌋).toNat with hIdef'
  have h0' : 0 ≤ h' := le_trans h0 hhh
  have hflnn : (0 : ℤ) ≤ ⌊h⌋ := Int.floor_nonneg.mpr h0
  have hflnn' : (0 : ℤ) ≤ ⌊h'⌋ := Int.floor_nonneg.mpr h0'
  have hIQ : ((I : ℕ) : ℚ) = ((⌊h⌋ : ℤ) : ℚ) := by
    rw [hIdef]
    exact_mod_cast congrArg (fun z : ℤ => (z : ℚ)) (Int.toNat_of_nonneg hflnn)
  have hIQ' : ((I' : ℕ) : ℚ) = ((⌊h'⌋ : ℤ) : ℚ) := by
    rw [hIdef']
    exact_mod_cast congrArg (fun z : ℤ => (z : ℚ)) (Int.toNat_of_nonneg hflnn')
  have f1 : ((I : ℕ) : ℚ) ≤ h := by rw [hIQ]; exact Int.floor_le h
  have f2 : h < ((I : ℕ) : ℚ) + 1 := by rw [hIQ]; exact Int.lt_floor_add_one h
  have f1' : ((I' : ℕ) : ℚ) ≤ h' := by rw [hIQ']; exact Int.floor_le h'
  have f2' : h' < ((I' : ℕ) : ℚ) + 1 := by rw [hIQ']; exact Int.lt_floor_add_one h'
  have hII' : I ≤ I' := by
    rw [hIdef, hIdef']
    exact Int.toNat_le_toNat (Int.floor_le_floor hhh)
  have hI'top : ((I' : ℕ) : ℚ) ≤ (s.length : ℚ) - 1 := le_trans f1' hub
  have hI'lt : I' < s.length := by
    have : ((I' : ℕ) : ℚ) + 1 ≤ (s.length : ℚ) := by linarith
    exact_mod_cast this
  unfold interpAt
  rw [← hIdef, ← hIdef']
  by_cases c' : I' + 1 < s.length
  · by_cases c : I + 1 < s.length
    · rw [if_pos c, if_pos c']
      have hab : s.getD I 0 ≤ s.getD (I + 1) 0 :=
        getD_mono_of_sorted hs (Nat.le_succ I) c
      have hab' : s.getD I' 0 ≤ s.getD (I' + 1) 0 :=
        getD_mono_of_sorted hs (Nat.le_succ I') c'
      rcases lt_or_eq_of_le hII' with hlt | heq
      · -- strictly later segment: pass through the segment endpoints
        have step1 : s.getD I 0 +
            (h - ((I : ℕ) : ℚ)) * (s.getD (I + 1) 0 - s.getD I 0) ≤
            s.getD (I + 1) 0 := by
          nlinarith [mul_nonneg (sub_nonneg.mpr hab)
            (sub_nonneg.mpr (le_of_lt (by linarith [f2] : h - ((I : ℕ) : ℚ) < 1)))]
        have step2 : s.getD (I + 1) 0 ≤ s.getD I' 0 :=
          getD_mono_of_sorted hs (by omega) hI'lt
        have step3 : s.getD I' 0 ≤ s.getD I' 0 +
            (h' - ((I' : ℕ) : ℚ)) * (s.getD (I' + 1) 0 - s.getD I' 0) := by
          nlinarith [mul_nonneg (sub_nonneg.mpr f1') (sub_nonneg.mpr hab')]
        linarith
      · -- same segment: interpolation is monotone in the rank
        rw [← heq] at hab' f1' f2' ⊢
        nlinarith [mul_nonneg (sub_nonneg.mpr hhh) (sub_nonneg.mpr hab)]
    · exact absurd (by omega : I' + 1 < s.length → False) (fun k => k c')
  · by_cases c : I + 1 < s.length
    · rw [if_pos c, if_neg c']
      have hab : s.getD I 0 ≤ s.getD (I + 1) 0 :=
        getD_mono_of_sorted hs (Nat.le_succ I) c
      have step1 : s.getD I 0 +
          (h - ((I : ℕ) : ℚ)) * (s.getD (I + 1) 0 - s.getD I 0) ≤
          s.getD (I + 1) 0 := by
        nlinarith [mul_nonneg (sub_nonneg.mpr hab)
          (sub_nonneg.mpr (le_of_lt (by linarith [f2] : h - ((I : ℕ) : ℚ) < 1)))]
      have step2 : s.getD (I + 1) 0 ≤ s.getD (s.length - 1) 0 :=
        getD_mono_of_sorted hs (by omega) (by omega)
      linarith
    · rw [if_neg c, if_neg c']

theorem quantile_mono {xs : List ℚ} (hne : xs ≠ [])
    {p q : ℚ} (hp : 0 ≤ p) (hpq : p ≤ q) (hq : q ≤ 1) :
    quantile xs p ≤ quantile xs q := by
  have hn : 0 < xs.length := List.length_pos.mpr hne
  have hn1 : (0 : ℚ) ≤ (xs.length : ℚ) - 1 := by
    have : (1 : ℚ) ≤ (xs.length : ℚ) := by exact_mod_cast hn
    linarith
  simp only [quantile, if_neg hne]
  apply interpAt_mono (sortColumn_sorted xs) (sortColumn_ne_nil hne)
  · exact mul_nonneg hp hn1
  · exact mul_le_mul_of_nonneg_right hpq hn1
  · rw [sortColumn_length]
    nlinarith

/-- C3: every trace of the box figure suppresses individual outlier
points, and for a non-empty column its five-number summary is ordered:
min ≤ Q1 ≤ median ≤ Q3 ≤ max. -/
theorem box_summary_ordered (t : ClinicalSampleTable) (tr : BoxTrace)
    (htr : tr ∈ boxFig t) :
    tr.boxpoints = false ∧
    (tr.y ≠ [] →
      (boxStats tr.y).min ≤ (boxStats tr.y).q1 ∧
      (boxStats tr.y).q1 ≤ (boxStats tr.y).median ∧
      (boxStats tr.y).median ≤ (boxStats tr.y).q3 ∧
      (boxStats tr.y).q3 ≤ (boxStats tr.y).max) := by
  constructor
  · obtain ⟨c, _, rfl⟩ := List.mem_map.mp htr
    rfl
  · intro hne
    refine ⟨?_, ?_, ?_, ?_⟩ <;>
      · apply quantile_mono hne <;> norm_num

/-- Witness for C3: a concrete one-column table with values 3, 1, 2. -/
theorem box_summary_ordered_witness :
    (⟨[3, 1, 2], "h", "#E83E8C", false⟩ : BoxTrace) ∈
      boxFig ⟨[("h", [3, 1, 2])]⟩ ∧
    (⟨[3, 1, 2], "h", "#E83E8C", false⟩ : BoxTrace).boxpoints = false ∧
    ((boxStats [3, 1, 2]).min ≤ (boxStats [3, 1, 2]).q1 ∧
      (boxStats [3, 1, 2]).q1 ≤ (boxStats [3, 1, 2]).median ∧
      (boxStats [3, 1, 2]).median ≤ (boxStats [3, 1, 2]).q3 ∧
      (boxStats [3, 1, 2]).q3 ≤ (boxStats [3, 1, 2]).max) := by
  have hm : (⟨[3, 1, 2], "h", "#E83E8C", false⟩ : BoxTrace) ∈
      boxFig ⟨[("h", [3, 1, 2])]⟩ := by decide
  obtain ⟨h1, h2⟩ := box_summary_ordered ⟨[("h", [3, 1, 2])]⟩ _ hm
  exact ⟨hm, h1, h2 (by decide)⟩

/-- Arithmetic mean of a column, as `df.mean()` computes it per column. -/
def meanQ (xs : List ℚ) : ℚ := xs.sum / (xs.length : ℚ)

/-- The per-column means of the table, in column order (`df.mean().values`,
line 184). -/
def columnMeans (t : ClinicalSampleTable) : List ℚ :=
  t.cols.map (fun c => meanQ c.2)

/-- Maximum of a list of rationals, as `.max()` over the mean series;
defined as 0 on the empty list, which the script never produces. -/
def listMax : List ℚ → ℚ
  | [] => 0
  | x :: xs => xs.foldl max x

/-- The radar trace the script adds on lines 187-193: the per-column
means as radial values, the column names as angular labels, closed into
a filled shape by `fill` set to `toself`. -/
structure RadarTrace where
  r : List ℚ
  theta : List String
  fill : String
  name : String
  lineColor : String
deriving DecidableEq

/-- The radar figure trace built from the table. -/
def radarFig (t : ClinicalSampleTable) : RadarTrace :=
  ⟨columnMeans t, t.cols.map Prod.fst, "toself", "Patient Values", "#E83E8C"⟩

/-- The radial-axis upper bound of line 197: `df.mean().max() * 1.2`. -/
def radarUpperBound (t : ClinicalSampleTable) : ℚ :=
  listMax (columnMeans t) * 1.2

/-- The radial-axis range of line 197: `range=[0, df.mean().max() * 1.2]`. -/
def radarRange (t : ClinicalSampleTable) : ℚ × ℚ :=
  (0, radarUpperBound t)

theorem le_foldl_max (xs : List ℚ) (a : ℚ) : a ≤ xs.foldl max a := by
  induction xs generalizing a with
  | nil => exact le_refl a
  | cons y ys ih => exact le_trans (le_max_left a y) (ih (max a y))

theorem mem_le_foldl_max (xs : List ℚ) (a v : ℚ) (hv : v ∈ xs) :
    v ≤ xs.foldl max a := by
  induction xs generalizing a with
  | nil => cases hv
  | cons y ys ih =>
    rcases List.mem_cons.mp hv with rfl | hv'
    · exact le_trans (le_max_right a v) (le_foldl_max ys (max a v))
    · exact ih (max a y) hv'

theorem le_listMax {xs : List ℚ} {v : ℚ} (hv : v ∈ xs) : v ≤ listMax xs := by
  cases xs with
  | nil => cases hv
  | cons y ys =>
    rcases List.mem_cons.mp hv with rfl | hv'
    · exact le_foldl_max ys v
    · exact mem_le_foldl_max ys y v hv'

/-- C4: the radial-axis upper bound is exactly 1.2 times the maximum of
the per-column means, and raising the maximum mean raises the bound to
exactly 1.2 times the new maximum. -/
theorem radar_bound (t t' : ClinicalSampleTable) :
    radarUpperBound t = 1.2 * listMax (columnMeans t) ∧
    (listMax (columnMeans t) < listMax (columnMeans t') →
      radarUpperBound t < radarUpperBound t' ∧
      radarUpperBound t' = 1.2 * listMax (columnMeans t')) := by
  constructor
  · rw [radarUpperBound, mul_comm]
  · intro hlt
    constructor
    · rw [radarUpperBound, radarUpperBound]
      have : (0 : ℚ) < 1.2 := by norm_num
      exact mul_lt_mul_of_pos_right hlt this
    · rw [radarUpperBound, mul_comm]

/-- Witness for C4: two concrete one-column tables whose means are 3/2
and 3. -/
theorem radar_bound_witness :
    radarUpperBound ⟨[("a", [1, 2])]⟩ =
      1.2 * listMax (columnMeans ⟨[("a", [1, 2])]⟩) ∧
    radarUpperBound ⟨[("a", [1, 2])]⟩ < radarUpperBound ⟨[("a", [2, 4])]⟩ ∧
    radarUpperBound ⟨[("a", [2, 4])]⟩ =
      1.2 * listMax (columnMeans ⟨[("a", [2, 4])]⟩) := by
  obtain ⟨h1, h2⟩ := radar_bound ⟨[("a", [1, 2])]⟩ ⟨[("a", [2, 4])]⟩
  obtain ⟨h3, h4⟩ := h2 (by norm_num [columnMeans, meanQ, listMax])
  exact ⟨h1, h3, h4⟩

theorem getD_map {α β : Type} (g : α → β) (d : α) :
    ∀ (l : List α) (i : ℕ), (l.map g).getD i (g d) = g (l.getD i d)
  | [], _ => rfl
  | _ :: _, 0 => rfl
  | _ :: l, i + 1 => getD_map g d l i

theorem meanQ_nil : meanQ [] = 0 := by
  simp [meanQ]

/-- C5: the radar trace has one vertex per column — eight vertices — each
equal to the arithmetic mean of the twenty values of its column, the
angular labels are the column names, and the trace is closed into a
filled shape. -/
theorem radar_trace_shape (f : NormalSampler) (hf : SamplerSpec f) :
    (radarFig (generateData f)).r.length = 8 ∧
    (radarFig (generateData f)).theta = sampleColumnNames ∧
    (radarFig (generateData f)).fill = "toself" ∧
    (∀ i : ℕ, i < 8 →
      (radarFig (generateData f)).r.getD i 0 =
        meanQ (((generateData f).cols.getD i ("", [])).2) ∧
      (((generateData f).cols.getD i ("", [])).2).length = 20) := by
  obtain ⟨hnames, _, hlen, hcollen, _⟩ := generator_shape f hf
  refine ⟨?_, ?_, rfl, ?_⟩
  · simp [radarFig, columnMeans, hlen]
  · rw [radarFig]
    exact hnames
  · intro i hi
    refine ⟨?_, hcollen i hi⟩
    have := getD_map (fun c : String × List ℚ => meanQ c.2) ("", [])
      ((generateData f).cols) i
    simpa [radarFig, columnMeans, meanQ_nil] using this

/-- Witness for C5 at the concrete sampler, reading off vertex 0. -/
theorem radar_trace_shape_witness :
    (radarFig (generateData constSampler)).r.length = 8 ∧
    (radarFig (generateData constSampler)).theta = sampleColumnNames ∧
    (radarFig (generateData constSampler)).fill = "toself" ∧
    (radarFig (generateData constSampler)).r.getD 0 0 =
      meanQ (((generateData constSampler).cols.getD 0 ("", [])).2) ∧
    (((generateData constSampler).cols.getD 0 ("", [])).2).length = 20 := by
  obtain ⟨h1, h2, h3, h4⟩ := radar_trace_shape constSampler constSampler_spec
  obtain ⟨h5, h6⟩ := h4 0 (by decide)
  exact ⟨h1, h2, h3, h5, h6⟩

/-- C10: the radial-axis lower bound is the constant 0; when every column
mean is nonnegative every vertex lies inside the displayed range, and a
vertex with a negative mean lies below the lower bound. -/
theorem radar_range_spec (t : ClinicalSampleTable) :
    (radarRange t).1 = 0 ∧
    ((∀ v ∈ columnMeans t, 0 ≤ v) →
      ∀ v ∈ (radarFig t).r, (radarRange t).1 ≤ v ∧ v ≤ (radarRange t).2) ∧
    (∀ v ∈ (radarFig t).r, v < 0 → v < (radarRange t).1) := by
  refine ⟨rfl, ?_, ?_⟩
  · intro hnn v hv
    have hv' : v ∈ columnMeans t := hv
    have hvmax : v ≤ listMax (columnMeans t) := le_listMax hv'
    have hv0 : 0 ≤ v := hnn v hv'
    have hmax0 : 0 ≤ listMax (columnMeans t) := le_trans hv0 hvmax
    refine ⟨hv0, ?_⟩
    rw [radarRange, radarUpperBound]
    nlinarith
  · intro v _ hvneg
    rw [radarRange]
    exact hvneg

/-- Witness for C10: a table with nonnegative means, checked at the
vertex 1, and a table with a negative mean, checked at the vertex -1. -/
theorem radar_range_spec_witness :
    (radarRange ⟨[("a", [1]), ("b", [2])]⟩).1 = 0 ∧
    ((radarRange ⟨[("a", [1]), ("b", [2])]⟩).1 ≤ 1 ∧
      1 ≤ (radarRange ⟨[("a", [1]), ("b", [2])]⟩).2) ∧
    -1 < (radarRange ⟨[("c", [-1])]⟩).1 := by
  obtain ⟨h1, h2, _⟩ := radar_range_spec ⟨[("a", [1]), ("b", [2])]⟩
  obtain ⟨_, _, h3⟩ := radar_range_spec ⟨[("c", [-1])]⟩
  refine ⟨h1, h2 ?_ 1 ?_, h3 (-1) ?_ ?_⟩
  · intro v hv
    simp only [columnMeans, meanQ, List.map] at hv
    norm_num at hv
    rcases hv with rfl | rfl <;> norm_num
  · norm_num [radarFig, columnMeans, meanQ]
  · norm_num [radarFig, columnMeans, meanQ]
  · norm_num

/-- Modelled from the spec: the validation `np.random.normal` applies to
its `scale` argument. The numpy implementation is not part of this
repository; per the error-handling design, an invalid parameter (a
negative standard deviation) surfaces as a configuration error instead
of silently producing degenerate data. -/
def npNormalChecked (f : NormalSampler) (m sd : ℚ) (n : ℕ) (st : RngState) :
    Except String (List ℚ × RngState) :=
  if sd < 0 then .error "scale < 0" else .ok (f m sd n st)

/-- The column draws with the validation in place: any error aborts the
whole generation step. -/
def drawColumnsChecked (f : NormalSampler) :
    List (String × ℚ × ℚ) → RngState →
    Except String (List (String × List ℚ) × RngState)
  | [], st => .ok ([], st)
  | (nm, m, s) :: ps, st =>
      match npNormalChecked f m s 20 st with
      | .error e => .error e
      | .ok r =>
        match drawColumnsChecked f ps r.2 with
        | .error e => .error e
        | .ok rest => .ok ((nm, r.1) :: rest.1, rest.2)

/-- The generation step under validation. -/
def generateDataChecked (f : NormalSampler) : Except String ClinicalSampleTable :=
  match drawColumnsChecked f sampleParams (npRandomSeed 42) with
  | .error e => .error e
  | .ok r => .ok ⟨r.1⟩

theorem drawColumnsChecked_ok (f : NormalSampler) :
    ∀ (ps : List (String × ℚ × ℚ)) (st : RngState),
      (∀ p ∈ ps, 0 ≤ p.2.2) →
      drawColumnsChecked f ps st = .ok (drawColumns f ps st)
  | [], _, _ => rfl
  | (nm, m, s) :: ps, st, hnn => by
      have hs : ¬ s < 0 := not_lt.mpr (hnn (nm, m, s) (List.mem_cons_self _ _))
      have ih := drawColumnsChecked_ok f ps (f m s 20 st).2
        (fun p hp => hnn p (List.mem_cons_of_mem _ hp))
      simp [drawColumnsChecked, npNormalChecked, hs, ih, drawColumns]

/-- C7: a negative standard deviation makes the checked sampling step
return a configuration error; all eight standard deviations the script
passes are nonnegative, and under that precondition the error branch is
unreachable — the checked generation step returns exactly the table the
unchecked one produces. -/
theorem sampling_validation (f : NormalSampler) (m sd : ℚ) (n : ℕ)
    (st : RngState) (hsd : sd < 0) :
    npNormalChecked f m sd n st = .error "scale < 0" ∧
    (∀ p ∈ sampleParams, 0 ≤ p.2.2) ∧
    (∀ g : NormalSampler, generateDataChecked g = .ok (generateData g)) := by
  refine ⟨by simp [npNormalChecked, hsd], by norm_num [sampleParams], ?_⟩
  intro g
  have h := drawColumnsChecked_ok g sampleParams (npRandomSeed 42) (by norm_num [sampleParams])
  simp [generateDataChecked, h, generateData, runGeneration]

/-- Witness for C7 at scale -1 and the concrete sampler. -/
theorem sampling_validation_witness :
    npNormalChecked constSampler 0 (-1) 20 (npRandomSeed 42) =
      .error "scale < 0" ∧
    (("height", (1.65 : ℚ), (0.1 : ℚ)) ∈ sampleParams →
      (0 : ℚ) ≤ (0.1 : ℚ)) ∧
    generateDataChecked constSampler = .ok (generateData constSampler) := by
  obtain ⟨h1, h2, h3⟩ :=
    sampling_validation constSampler 0 (-1) 20 (npRandomSeed 42) (by norm_num)
  exact ⟨h1, fun hm => h2 _ hm, h3 constSampler⟩

/-- The stylesheet payload the script writes to `style.css` on lines
25-99 before reading it back (literal braces written as escapes). -/
def styleCss : String :=
  "\n" ++
  "    /* General body styling */\n" ++
  "    body \x7b\n" ++
  "        background-color: #F0F2F6;\n" ++
  "    \x7d\n" ++
  "\n" ++
  "    /* Main container styling */\n" ++
  "    .main .block-container \x7b\n" ++
  "        padding-top: 2rem;\n" ++
  "        padding-bottom: 2rem;\n" ++
  "        padding-left: 3rem;\n" ++
  "        padding-right: 3rem;\n" ++
  "    \x7d\n" ++
  "\n" ++
  "    /* Card-like containers for sections */\n" ++
  "    .st-emotion-cache-1r6slb0, .st-emotion-cache-1y4p8pa \x7b\n" ++
  "        border-radius: 10px;\n" ++
  "        padding: 20px !important;\n" ++
  "        background-color: white;\n" ++
  "        box-shadow: 0 4px 8px 0 rgba(0,0,0,0.1);\n" ++
  "        transition: 0.3s;\n" ++
  "    \x7d\n" ++
  "\n" ++
  "    .st-emotion-cache-1r6slb0:hover, .st-emotion-cache-1y4p8pa:hover \x7b\n" ++
  "        box-shadow: 0 8px 16px 0 rgba(0,0,0,0.2);\n" ++
  "    \x7d\n" ++
  "\n" ++
  "    /* Header styling */\n" ++
  "    .header \x7b\n" ++
  "        background-color: #E83E8C;\n" ++
  "        color: white;\n" ++
  "        padding: 25px;\n" ++
  "        border-radius: 10px;\n" ++
  "        margin-bottom: 25px;\n" ++
  "        display: flex;\n" ++
  "        align-items: center;\n" ++
  "        justify-content: flex-start;\n" ++
  "    \x7d\n" ++
  "\n" ++
  "    .header h1 \x7b\n" ++
  "        font-size: 2.5em;\n" ++
  "        margin: 0;\n" ++
  "        padding-left: 20px;\n" ++
  "    \x7d\n" ++
  "\n" ++
  "    /* Section header styling */\n" ++
  "    h2 \x7b\n" ++
  "        color: #E83E8C;\n" ++
  "        border-bottom: 2px solid #E83E8C;\n" ++
  "        padding-bottom: 5px;\n" ++
  "        margin-top: 10px;\n" ++
  "        margin-bottom: 20px;\n" ++
  "    \x7d\n" ++
  "\n" ++
  "    /* Metric label styling */\n" ++
  "    .st-emotion-cache-1wivap2 \x7b\n" ++
  "        font-size: 1.1em;\n" ++
  "        color: #555;\n" ++
  "    \x7d\n" ++
  "\n" ++
  "    /* Metric value styling */\n" ++
  "    .st-emotion-cache-1g6goys \x7b\n" ++
  "        font-size: 1.3em;\n" ++
  "        font-weight: bold;\n" ++
  "    \x7d\n" ++
  "\n" ++
  "    /* Disclaimer text styling */\n" ++
  "    .disclaimer \x7b\n" ++
  "        font-size: 0.8em;\n" ++
  "        color: #888;\n" ++
  "        font-style: italic;\n" ++
  "        margin-top: 20px;\n" ++
  "    \x7d\n" ++
  "    "

/-- The SVG logo payload the script writes to `logo.svg` on lines
112-120 before reading it back. -/
def logoSvg : String :=
  "\n" ++
  "    <svg xmlns=\"http://www.w3.org/2000/svg\" width=\"60\" height=\"60\" viewBox=\"0 0 24 24\" fill=\"none\" stroke=\"white\" stroke-width=\"2\" stroke-linecap=\"round\" stroke-linejoin=\"round\" class=\"feather feather-git-branch\">\n" ++
  "        <line x1=\"6\" y1=\"3\" x2=\"6\" y2=\"15\"></line>\n" ++
  "        <circle cx=\"18\" cy=\"6\" r=\"3\"></circle>\n" ++
  "        <circle cx=\"6\" cy=\"18\" r=\"3\"></circle>\n" ++
  "        <path d=\"M18 9a9 9 0 0 1-9 9\"></path>\n" ++
  "    </svg>\n" ++
  "    "

/-- The base64 alphabet. -/
def base64Chars : List Char :=
  "ABCDEFGHIJKLMNOPQRSTUVWXYZabcdefghijklmnopqrstuvwxyz0123456789+/".toList

/-- The alphabet character at a 6-bit index. -/
def base64Char (n : ℕ) : Char := base64Chars.getD n 'A'

/-- Encode one group of at most three bytes into four base64 characters. -/
def base64Group : List ℕ → List Char
  | [] => []
  | [b0] =>
      [base64Char (b0 / 4), base64Char (b0 % 4 * 16), '=', '=']
  | [b0, b1] =>
      [base64Char (b0 / 4), base64Char (b0 % 4 * 16 + b1 / 16),
       base64Char (b1 % 16 * 4), '=']
  | b0 :: b1 :: b2 :: _ =>
      [base64Char (b0 / 4), base64Char (b0 % 4 * 16 + b1 / 16),
       base64Char (b1 % 16 * 4 + b2 / 64), base64Char (b2 % 64)]

/-- Encode a byte list in groups of three. -/
def base64Run : List ℕ → List Char
  | b0 :: b1 :: b2 :: rest => base64Group [b0, b1, b2] ++ base64Run rest
  | rest => base64Group rest

/-- Embedding of `base64.b64encode(data).decode()` over the UTF-8 bytes
of the file content. -/
def base64Encode (s : String) : String :=
  String.mk (base64Run (s.toUTF8.toList.map (fun b => b.toNat)))

/-- The filesystem as a map from file names to contents. -/
def FileSystem : Type := String → Option String

/-- A filesystem where neither bundled asset (nor anything else) exists. -/
def emptyFs : FileSystem := fun _ => none

/-- Writing a file (`open(name, "w")` followed by `write`). -/
def fsWrite (fs : FileSystem) (name content : String) : FileSystem :=
  fun n => if n = name then some content else fs n

/-- Reading a file: fails when the file is absent, as `open` for reading
does. -/
def fsRead (fs : FileSystem) (name : String) : Except String String :=
  match fs name with
  | some c => .ok c
  | none => .error ("No such file or directory: " ++ name)

/-- Embedding of `local_css` (lines 20-22): read the stylesheet and wrap
it in a style tag for injection. -/
def local_css (fs : FileSystem) (file_name : String) : Except String String :=
  match fsRead fs file_name with
  | .error e => .error e
  | .ok c => .ok ("<style>" ++ c ++ "</style>")

/-- Embedding of `get_base64_of_bin_file` (lines 106-109): read a file
and base64-encode its bytes. -/
def get_base64_of_bin_file (fs : FileSystem) (bin_file : String) :
    Except String String :=
  match fsRead fs bin_file with
  | .error e => .error e
  | .ok c => .ok (base64Encode c)

/-- A display element, covering every streamlit call the script makes
inside the two columns. -/
inductive Widget where
  | markdown (html : String)
  | boxChart (traces : List BoxTrace)
  | radarChart (tr : RadarTrace)
  | metricColumns (groups : List (List Widget))
  | metric (label value : String)
  | rule
  | info (text : String)

/-- Chart blocks (`st.plotly_chart` calls). -/
def isChartWidget : Widget → Bool
  | .boxChart _ => true
  | .radarChart _ => true
  | _ => false

/-- Section headings: markdown whose html begins with an h2 tag. -/
def isSectionHeading : Widget → Bool
  | .markdown s => s.toList.take 4 == "<h2>".toList
  | _ => false

/-- Horizontal rules (`st.write("---")`). -/
def isRuleWidget : Widget → Bool
  | .rule => true
  | _ => false

/-- The Patient Information section (lines 211-220): heading and a
3-column metric grid. -/
def patientInfoSection : List Widget :=
  [.markdown "<h2>Patient Information</h2>",
   .metricColumns
     [[.metric "Name" "X Y", .metric "Age" "35 years"],
      [.metric "Postcode" "3155", .metric "Height" "1.64 m"],
      [.metric "Weight" "57.9 kg"]]]

/-- The Clinical History section (lines 225-235): heading and a 2-column
metric grid. -/
def clinicalHistorySection : List Widget :=
  [.markdown "<h2>Clinical History</h2>",
   .metricColumns
     [[.metric "Number of previous IVF Cycles" "0",
       .metric "Polycystic Ovary Syndrome" "No",
       .metric "Fertility Preservation" "Yes",
       .metric "Unexplained causes of infertility" "No"],
      [.metric "Endometriosis" "No",
       .metric "Tubal Factors" "No",
       .metric "Other Infertility Factors" "Yes"]]]

/-- The Pathology section (lines 240-247): heading and a 2-column metric
grid. -/
def pathologySection : List Widget :=
  [.markdown "<h2>Pathology</h2>",
   .metricColumns
     [[.metric "Anti-Mullerian Hormone (AMH)" "16 ng/mL",
       .metric "Follicle-Stimulating Hormone (FSH)" "9.6 mIU/mL"],
      [.metric "Estradiol (E2)" "206 pg/mL",
       .metric "Luteinizing Hormone (LH)" "10.2 mIU/mL"]]]

/-- The literal info-callout text of lines 254-256 (adjacent Python
string literals concatenate). -/
def summaryInfoText : String :=
  "Based on the input data, the **predicted number of oocytes is 9**.\n\n" ++
  "The most influential factor in this prediction is **tubal factors**.\n\n" ++
  "The expected range of error in this prediction is between **-5 and +5 oocytes**."

/-- The disclaimer markdown of lines 258-267. -/
def disclaimerHtml : String :=
  "\n" ++
  "        <div class=\"disclaimer\">\n" ++
  "            Disclaimer: The predictions provided by this tool are for educational and counselling purposes only.\n" ++
  "            The accuracy of the predictions is subject to variability, and the tool should not be used as a sole\n" ++
  "            basis for medical decision-making.\n" ++
  "        </div>\n" ++
  "        "

/-- The Summary of Results section (lines 252-267): heading, the info
callout, and the disclaimer. -/
def summarySection : List Widget :=
  [.markdown "<h2>Summary of Results</h2>", .info summaryInfoText,
   .markdown disclaimerHtml]

/-- The right column (lines 209-267): the four sections with a horizontal
rule between consecutive sections. -/
def rightColumn : List Widget :=
  patientInfoSection ++ [Widget.rule] ++ clinicalHistorySection ++
    [Widget.rule] ++ pathologySection ++ [Widget.rule] ++ summarySection

/-- The left column (lines 141-205): the Clinical Summary heading, then
the box plot block, then the radar chart block. -/
def leftColumn (f : NormalSampler) : List Widget :=
  [.markdown "<h2>Clinical Summary</h2>",
   .markdown "<h5>Parameter Comparison (Box Plot)</h5>",
   .boxChart (boxFig (generateData f)),
   .markdown "<h5>Parameter Comparison (Radar Chart)</h5>",
   .radarChart (radarFig (generateData f))]

/-- The header markup of lines 125-133, with the encoded logo inlined. -/
def headerDiv (logo64 : String) : String :=
  "\n" ++
  "    <div class=\"header\">\n" ++
  "        <img src=\"data:image/svg+xml;base64," ++ logo64 ++
  "\" alt=\"logo\">\n" ++
  "        <h1>IVF Cycle Oocyte Prediction Report</h1>\n" ++
  "    </div>\n" ++
  "    "

/-- The rendered page: configuration title, injected style block, header
markup, and the two columns created by `st.columns([1, 1.2])`. -/
structure Page where
  pageTitle : String
  styleBlock : String
  headerHtml : String
  leftWidth : ℚ
  rightWidth : ℚ
  left : List Widget
  right : List Widget

/-- Compose the page from the loaded style block and encoded logo. -/
def buildPage (styleBlock logo64 : String) (f : NormalSampler) : Page :=
  { pageTitle := "IVF Cycle Prediction Report"
    styleBlock := styleBlock
    headerHtml := headerDiv logo64
    leftWidth := 1
    rightWidth := 1.2
    left := leftColumn f
    right := rightColumn }

/-- The whole script, top to bottom: write the stylesheet, read it back
through `local_css`, write the logo, read and encode it through
`get_base64_of_bin_file`, then compose the page. A failed read aborts
with the error and produces no page. -/
def runApp (fs0 : FileSystem) (f : NormalSampler) : Except String Page :=
  match local_css (fsWrite fs0 "style.css" styleCss) "style.css" with
  | .error e => .error e
  | .ok styleBlock =>
    match get_base64_of_bin_file
        (fsWrite (fsWrite fs0 "style.css" styleCss) "logo.svg" logoSvg)
        "logo.svg" with
    | .error e => .error e
    | .ok logo64 => .ok (buildPage styleBlock logo64 f)

/-- C6: for every style block, logo and sampler, the page is two
side-by-side regions with width ratio 1 : 1.2; the left region holds
exactly two chart blocks, the box plot before the radar plot; the right
region holds exactly the four named sections, in order, separated by
three horizontal rules. -/
theorem report_layout (styleBlock logo64 : String) (f : NormalSampler) :
    (buildPage styleBlock logo64 f).leftWidth = 1 ∧
    (buildPage styleBlock logo64 f).rightWidth = 1.2 ∧
    (buildPage styleBlock logo64 f).left.filter isChartWidget =
      [.boxChart (boxFig (generateData f)),
       .radarChart (radarFig (generateData f))] ∧
    ((buildPage styleBlock logo64 f).left.filter isChartWidget).length = 2 ∧
    (buildPage styleBlock logo64 f).right.filter isSectionHeading =
      [.markdown "<h2>Patient Information</h2>",
       .markdown "<h2>Clinical History</h2>",
       .markdown "<h2>Pathology</h2>",
       .markdown "<h2>Summary of Results</h2>"] ∧
    ((buildPage styleBlock logo64 f).right.filter isSectionHeading).length = 4 ∧
    ((buildPage styleBlock logo64 f).right.filter isRuleWidget).length = 3 ∧
    (buildPage styleBlock logo64 f).right =
      patientInfoSection ++ [Widget.rule] ++ clinicalHistorySection ++
        [Widget.rule] ++ pathologySection ++ [Widget.rule] ++ summarySection :=
  ⟨rfl, rfl, rfl, rfl, rfl, rfl, rfl, rfl⟩

/-- Counterexample to C8 as stated: on a filesystem where both bundled
assets are missing, the program does not fail at startup — the script
rewrites both assets before reading them, so the render succeeds. -/
theorem assets_missing_still_renders :
    emptyFs "style.css" = none ∧ emptyFs "logo.svg" = none ∧
    (runApp emptyFs constSampler).isOk = true :=
  ⟨rfl, rfl, rfl⟩

/-- C8 amended: startup rewrites both assets before reading them, so
asset loading succeeds from every initial filesystem state — in
particular whenever both assets are readable — and the page it produces
is the full page built from the freshly written contents. -/
theorem startup_assets_always_ok (fs : FileSystem) (f : NormalSampler) :
    runApp fs f =
      .ok (buildPage ("<style>" ++ styleCss ++ "</style>")
            (base64Encode logoSvg) f) := by
  simp [runApp, local_css, get_base64_of_bin_file, fsRead, fsWrite]

/-- C9: the info callout of the Summary of Results section carries the
one literal text, identical for any two renders whatever the style
block, logo and sampled table, and the predicted count 9, the factor
name and the error range appear verbatim in it. -/
theorem summary_literal_fields (styleBlock logo64 : String)
    (f : NormalSampler) (styleBlock2 logo64b : String) (g : NormalSampler) :
    ((buildPage styleBlock logo64 f).right.filterMap
        (fun w => match w with | .info s => some s | _ => none)) =
      [summaryInfoText] ∧
    ((buildPage styleBlock2 logo64b g).right.filterMap
        (fun w => match w with | .info s => some s | _ => none)) =
      ((buildPage styleBlock logo64 f).right.filterMap
        (fun w => match w with | .info s => some s | _ => none)) ∧
    (∃ a b : String,
      summaryInfoText = a ++ ("predicted number of oocytes is 9" ++ b)) ∧
    (∃ a b : String, summaryInfoText = a ++ ("tubal factors" ++ b)) ∧
    (∃ a b : String, summaryInfoText = a ++ ("-5 and +5" ++ b)) := by
  refine ⟨rfl, rfl, ⟨"Based on the input data, the **", ?_⟩, ?_, ?_⟩
  · exact ⟨"**.\n\nThe most influential factor in this prediction is **tubal factors**.\n\nThe expected range of error in this prediction is between **-5 and +5 oocytes**.", rfl⟩
  · exact ⟨"Based on the input data, the **predicted number of oocytes is 9**.\n\nThe most influential factor in this prediction is **", "**.\n\nThe expected range of error in this prediction is between **-5 and +5 oocytes**.", rfl⟩
  · exact ⟨"Based on the input data, the **predicted number of oocytes is 9**.\n\nThe most influential factor in this prediction is **tubal factors**.\n\nThe expected range of error in this prediction is between **", " oocytes**.", rfl⟩
